import Mathlib

/-!
Verification development for the GoHighLevel token-lifecycle service
(`ghl_integration`): the credential data model (`models.py`), the token
refresh / health services (`services.py`) and the webhook reconciler
(`views.py`), shallowly embedded in Lean.

Modelling conventions:
* Timestamps and durations are integer seconds (`Int`); `timezone.now()`
  becomes an explicit `now : Int` parameter and `timedelta(hours=1)` is
  `3600`.
* The HTTP token-exchange call is an explicit `ExchangeResult` argument:
  `failure` stands for a transport error or a non-2xx response
  (`requests` exception / `raise_for_status`), `success td` for a 2xx
  response whose JSON body decoded to `td`.  Optional response fields are
  `Option`s, mirroring `dict.get` with a fallback.
* A Django model instance is a structure value; `save()` is modelled by
  returning the updated value (the persisted state).  A function that the
  Python code makes raise is modelled with an explicit error constructor.
-/

namespace GHL

/-- The `GoHighLevelIntegration` model of `models.py` (one credential
record per tenant/location).  Timestamps are integer seconds. -/
structure Integration where
  location_id : String
  location_name : String
  user_id : String
  user_email : String
  access_token : String
  refresh_token : String
  refresh_token_id : String
  token_type : String
  expires_at : Int
  user_type : String
  scope : String
  is_bulk_installation : Bool
  is_active : Bool
  company_id : String
  company_name : String
  deriving Repr, DecidableEq

/-- `GoHighLevelIntegration.is_token_expired` (`models.py` line 49):
`timezone.now() >= self.expires_at`. -/
def is_token_expired (r : Integration) (now : Int) : Bool :=
  decide (r.expires_at ≤ now)

/-- `GoHighLevelIntegration.needs_refresh` (`models.py` line 54):
`(self.expires_at - timezone.now()) <= timezone.timedelta(hours=1)`. -/
def needs_refresh (r : Integration) (now : Int) : Bool :=
  decide (r.expires_at - now ≤ 3600)

/-- JSON body of a 2xx token-exchange response; fields read with
`token_data.get(...)` in the source are `Option`s. -/
structure TokenData where
  access_token : String
  refresh_token : Option String
  refreshTokenId : Option String
  expires_in : Option Int
  userType : Option String
  scope : Option String
  isBulkInstallation : Option Bool
  deriving Repr, DecidableEq

/-- Outcome of the POST to the provider token endpoint: `failure` is a
transport error or a non-2xx status (the `requests.exceptions.RequestException`
path of `refresh_single_token`), `success` a 2xx response with decoded body. -/
inductive ExchangeResult where
  | failure : ExchangeResult
  | success : TokenData → ExchangeResult
  deriving Repr, DecidableEq

/-- The field-update block of `TokenRefreshService.refresh_single_token`
(`services.py` lines 97-104): assign the new tokens and metadata, with
`dict.get` fallbacks to the existing values, then `save()`. -/
def applyTokenData (r : Integration) (now : Int) (td : TokenData) : Integration :=
  { r with
    access_token := td.access_token
    refresh_token := td.refresh_token.getD r.refresh_token
    refresh_token_id := td.refreshTokenId.getD r.refresh_token_id
    expires_at := now + td.expires_in.getD 3600
    user_type := td.userType.getD r.user_type
    scope := td.scope.getD r.scope
    is_bulk_installation := td.isBulkInstallation.getD r.is_bulk_installation }

/-- `TokenRefreshService.refresh_single_token` (`services.py` lines 69-114).
Returns `(success?, persisted record)`: with an empty refresh token it logs
and returns `False`; on exchange failure the exception is caught before any
field assignment or `save()`, so the stored record is returned unchanged;
on success the updated record is saved. -/
def refresh_single_token (r : Integration) (now : Int) (ex : ExchangeResult) :
    Bool × Integration :=
  if r.refresh_token = "" then (false, r)
  else
    match ex with
    | .failure => (false, r)
    | .success td => (true, applyTokenData r now td)

/-- Result of `TokenRefreshService.get_valid_token`: `inactiveError` is the
`ValueError("Integration is not active")` raise, `refreshFailed` the
`Exception("Failed to refresh token")` raise, `ok token was_refreshed` the
normal return. -/
inductive GetValidResult where
  | inactiveError : GetValidResult
  | refreshFailed : GetValidResult
  | ok : String → Bool → GetValidResult
  deriving Repr, DecidableEq

/-- `TokenRefreshService.get_valid_token` (`services.py` lines 116-142),
returning the outcome together with the persisted record. -/
def get_valid_token (r : Integration) (now : Int) (ex : ExchangeResult) :
    GetValidResult × Integration :=
  if !r.is_active then (.inactiveError, r)
  else if needs_refresh r now then
    match refresh_single_token r now ex with
    | (true, r') => (.ok r'.access_token true, r')
    | (false, r') => (.refreshFailed, r')
  else if is_token_expired r now then
    match refresh_single_token r now ex with
    | (true, r') => (.ok r'.access_token true, r')
    | (false, r') => (.refreshFailed, r')
  else (.ok r.access_token false, r)

/-- Path condition of the `if integration.is_token_expired:` branch of
`get_valid_token` (`services.py` line 134): it runs only for an active
record that does not need refresh but is expired. -/
def reaches_expired_branch (r : Integration) (now : Int) : Bool :=
  r.is_active && !needs_refresh r now && is_token_expired r now

/-- A fixed record used by witnesses: an active integration whose token
expires at time `e`. -/
def sampleI (loc : String) (e : Int) : Integration :=
  { location_id := loc
    location_name := ""
    user_id := ""
    user_email := ""
    access_token := "tokA"
    refresh_token := "refA"
    refresh_token_id := ""
    token_type := "Bearer"
    expires_at := e
    user_type := ""
    scope := ""
    is_bulk_installation := false
    is_active := true
    company_id := ""
    company_name := "" }

/-- C1: on transport or non-2xx failure of the token-exchange request,
`refresh_single_token` returns failure and the persisted record is unchanged
in every field; in particular `access_token`, `refresh_token` and
`expires_at` are byte-for-byte what was stored. -/
theorem C1_refresh_failure_no_update (r : Integration) (now : Int)
    (h : r.refresh_token ≠ "") :
    refresh_single_token r now .failure = (false, r)
    ∧ (refresh_single_token r now .failure).2.access_token = r.access_token
    ∧ (refresh_single_token r now .failure).2.refresh_token = r.refresh_token
    ∧ (refresh_single_token r now .failure).2.expires_at = r.expires_at := by
  simp [refresh_single_token, h]

/-- Witness for C1 at a concrete record. -/
theorem C1_refresh_failure_no_update_witness :
    refresh_single_token (sampleI "w1" 100) 0 .failure = (false, sampleI "w1" 100) :=
  (C1_refresh_failure_no_update (sampleI "w1" 100) 0 (by decide)).1

/-- C3: `needs_refresh` holds exactly when at most one hour of lifetime
remains, and the one-hour boundary is inclusive. -/
theorem C3_needs_refresh_boundary (r : Integration) (now : Int) :
    (needs_refresh r now = true ↔ r.expires_at - now ≤ 3600)
    ∧ (r.expires_at - now = 3600 → needs_refresh r now = true) := by
  constructor
  · simp [needs_refresh]
  · intro h
    simp [needs_refresh]
    omega

/-- Witness for C3: at exactly one hour remaining `needs_refresh` is true. -/
theorem C3_needs_refresh_boundary_witness :
    needs_refresh (sampleI "w3" 3600) 0 = true :=
  (C3_needs_refresh_boundary (sampleI "w3" 3600) 0).2 (by decide)

/-- C7: a successful exchange updates `refresh_token` to the response's
value, keeping the stored one when the response omits it, sets
`expires_at := now + expires_in` with default `3600`, stores the response's
`access_token`, and all of it lands in the single saved record. -/
theorem C7_refresh_success_fields (r : Integration) (now : Int) (td : TokenData)
    (h : r.refresh_token ≠ "") :
    (refresh_single_token r now (.success td)).1 = true
    ∧ (refresh_single_token r now (.success td)).2.refresh_token
        = (match td.refresh_token with
           | some t => t
           | none => r.refresh_token)
    ∧ (refresh_single_token r now (.success td)).2.expires_at
        = now + (match td.expires_in with
                 | some e => e
                 | none => 3600)
    ∧ (refresh_single_token r now (.success td)).2.access_token = td.access_token
    ∧ (refresh_single_token r now (.success td)).2
        = applyTokenData r now td := by
  cases htd : td.refresh_token <;> cases hte : td.expires_in <;>
    simp [refresh_single_token, applyTokenData, h, htd, hte, Option.getD]

/-- Witness for C7: a response with no `refresh_token` and no `expires_in`
keeps the stored refresh token and defaults the lifetime to 3600 seconds. -/
theorem C7_refresh_success_fields_witness :
    (refresh_single_token (sampleI "w7" 100) 50
        (.success ⟨"newTok", none, none, none, none, none, none⟩)).2.refresh_token
      = "refA"
    ∧ (refresh_single_token (sampleI "w7" 100) 50
        (.success ⟨"newTok", none, none, none, none, none, none⟩)).2.expires_at
      = 3650 := by
  have h := C7_refresh_success_fields (sampleI "w7" 100) 50
    ⟨"newTok", none, none, none, none, none, none⟩ (by decide)
  exact ⟨h.2.1, h.2.2.1⟩

/-- Round-half-even of the exact rational `num / den` to the nearest
integer (Python's banker rounding), for `den > 0`.  Used to model
`round(x, 2)` with percentages scaled to hundredths, keeping all arithmetic
in kernel-computable naturals. -/
def roundHalfEven (num den : Nat) : Nat :=
  let q := num / den
  let r := num % den
  if 2 * r < den then q
  else if den < 2 * r then q + 1
  else if q % 2 = 0 then q else q + 1

/-- Return value of `TokenHealthService.get_token_health_summary`.
`health_percentage` is Python's `round(healthy / total * 100, 2)`
represented exactly in hundredths of a percent (the two decimals of the
rounded float scaled by 100, e.g. `50.0` percent is `5000`); the binary
floating-point representation is abstracted to the exact rational. -/
structure HealthSummary where
  total_integrations : Nat
  expired_tokens : Nat
  needs_refresh : Nat
  healthy_tokens : Nat
  health_percentage : Nat
  deriving Repr, DecidableEq

/-- `TokenHealthService.get_token_health_summary` (`services.py` lines
150-168): over the active records, count the expired ones, the ones needing
refresh, and the ones doing neither, and report
`round((healthy / total * 100) if total > 0 else 0, 2)` — here as hundredths
of a percent, `round_half_even(healthy * 10000 / total)`. -/
def get_token_health_summary (rs : List Integration) (now : Int) : HealthSummary :=
  let integrations := rs.filter (fun i => i.is_active)
  let total := integrations.length
  let expired := integrations.countP (fun i => is_token_expired i now)
  let needsR := integrations.countP (fun i => needs_refresh i now)
  let healthy :=
    integrations.countP (fun i => !is_token_expired i now && !needs_refresh i now)
  { total_integrations := total
    expired_tokens := expired
    needs_refresh := needsR
    healthy_tokens := healthy
    health_percentage :=
      if 0 < total then roundHalfEven (healthy * 10000) total else 0 }

/-- Counting a conjunction with `q` and with its negation partitions the
count of `p`. -/
theorem countP_and_split {α : Type} (l : List α) (p q : α → Bool) :
    l.countP p
      = l.countP (fun a => p a && q a) + l.countP (fun a => p a && !q a) := by
  induction l with
  | nil => simp
  | cons a l ih =>
      cases hp : p a <;> cases hq : q a <;>
        simp [List.countP_cons, hp, hq, ih] <;> omega

/-- Pointwise equal predicates count alike. -/
theorem countP_ext {α : Type} (l : List α) (p q : α → Bool)
    (h : ∀ a ∈ l, p a = q a) : l.countP p = l.countP q := by
  induction l with
  | nil => simp
  | cons a l ih =>
      have ha := h a (by simp)
      simp [List.countP_cons, ha, ih fun b hb => h b (by simp [hb])]

/-- The 10-record health scenario at `now = 0`: three expired records, two
non-expired records inside the one-hour refresh window, five healthy. -/
def scenarioRecords : List Integration :=
  [sampleI "e1" (-100), sampleI "e2" (-10), sampleI "e3" 0,
   sampleI "n1" 1800, sampleI "n2" 3600,
   sampleI "h1" 7200, sampleI "h2" 7200, sampleI "h3" 8000,
   sampleI "h4" 9000, sampleI "h5" 10000]

/-- Counterexample to C2: the summary does not classify by priority — an
expired record is counted in `needs_refresh` as well (expiry implies the
refresh window).  Over 10 active records with 3 expired, 2 needing refresh
(non-expired) and 5 healthy, the code reports `needs_refresh = 5`, not the
claimed 2. -/
theorem C2_health_summary_counterexample :
    (scenarioRecords.countP (fun i => is_token_expired i 0) = 3
      ∧ scenarioRecords.countP
          (fun i => needs_refresh i 0 && !is_token_expired i 0) = 2
      ∧ scenarioRecords.countP
          (fun i => !is_token_expired i 0 && !needs_refresh i 0) = 5
      ∧ ∀ i ∈ scenarioRecords, i.is_active = true)
    ∧ (get_token_health_summary scenarioRecords 0).needs_refresh = 5
    ∧ ¬ (get_token_health_summary scenarioRecords 0).needs_refresh = 2 := by
  refine ⟨⟨?_, ?_, ?_, ?_⟩, ?_, ?_⟩ <;> decide

/-- C2 as amended: the three counters overlap rather than classify by
priority — `expired` counts `is_token_expired`, `needs_refresh` counts every
record in the refresh window (so it equals `expired` plus the non-expired
records in the window), and `healthy` counts the complement of the window;
over the 10-record scenario the summary is `total 10, expired 3,
needs_refresh 5, healthy 5, health_percentage 50.00 (5000 hundredths)`. -/
theorem C2_health_summary_amended (rs : List Integration) (now : Int) :
    (get_token_health_summary rs now).needs_refresh
        = (get_token_health_summary rs now).expired_tokens
          + (rs.filter (fun i => i.is_active)).countP
              (fun i => needs_refresh i now && !is_token_expired i now)
    ∧ (get_token_health_summary rs now).healthy_tokens
        = (rs.filter (fun i => i.is_active)).countP
            (fun i => !needs_refresh i now)
    ∧ get_token_health_summary scenarioRecords 0
        = { total_integrations := 10
            expired_tokens := 3
            needs_refresh := 5
            healthy_tokens := 5
            health_percentage := 5000 } := by
  have himp : ∀ i : Integration, is_token_expired i now = true →
      needs_refresh i now = true := by
    intro i h
    simp [is_token_expired] at h
    simp [needs_refresh]
    omega
  refine ⟨?_, ?_, by decide⟩
  · have hconj : (rs.filter (fun i => i.is_active)).countP
        (fun i => needs_refresh i now && is_token_expired i now)
        = (rs.filter (fun i => i.is_active)).countP
            (fun i => is_token_expired i now) := by
      refine countP_ext _ _ _ fun i _ => ?_
      rcases he : is_token_expired i now with _ | _
      · simp
      · simp [himp i he]
    simp only [get_token_health_summary]
    rw [countP_and_split (rs.filter (fun i => i.is_active))
      (fun i => needs_refresh i now) (fun i => is_token_expired i now), hconj]
  · refine countP_ext _ _ _ fun i _ => ?_
    rcases hn : needs_refresh i now with _ | _
    · rcases he : is_token_expired i now with _ | _
      · simp
      · exact absurd (himp i he) (by simp [hn])
    · simp

/-- Whether the token-exchange call came back successful. -/
def exSucceeds : ExchangeResult → Bool
  | .failure => false
  | .success _ => true

/-- `TokenRefreshService.refresh_expired_tokens` (`services.py` lines 26-67):
the store is the list of records; the queryset filter keeps active records
with a non-empty refresh token, the loop refreshes those with
`needs_refresh`, counting successes and failures, and a per-record failure
(a `False` return or an exception, both counted as failed) moves on to the
next record.  Returns `(refreshed_count, failed_count, updated store)`. -/
def refresh_expired_tokens (now : Int) (ex : Integration → ExchangeResult) :
    List Integration → Nat × Nat × List Integration
  | [] => (0, 0, [])
  | i :: rest =>
    let prev := refresh_expired_tokens now ex rest
    if i.is_active && (i.refresh_token != "") && needs_refresh i now then
      let res := refresh_single_token i now (ex i)
      if res.1 then (prev.1 + 1, prev.2.1, res.2 :: prev.2.2)
      else (prev.1, prev.2.1 + 1, res.2 :: prev.2.2)
    else (prev.1, prev.2.1, i :: prev.2.2)

/-- Structural description of the sweep: the refreshed and failed counters
count the due records by exchange outcome, the store keeps its length, and
records not due keep their exact value. -/
theorem refresh_sweep_aux (now : Int) (ex : Integration → ExchangeResult) :
    ∀ rs : List Integration,
    (∀ i ∈ rs, i.is_active = true ∧ i.refresh_token ≠ "") →
    (refresh_expired_tokens now ex rs).1
        = rs.countP (fun i => needs_refresh i now && exSucceeds (ex i))
    ∧ (refresh_expired_tokens now ex rs).2.1
        = rs.countP (fun i => needs_refresh i now && !exSucceeds (ex i))
    ∧ (refresh_expired_tokens now ex rs).2.2.length = rs.length
    ∧ ∀ p ∈ rs.zip (refresh_expired_tokens now ex rs).2.2,
        needs_refresh p.1 now = false → p.2 = p.1 := by
  intro rs
  induction rs with
  | nil => intro _; simp [refresh_expired_tokens]
  | cons i rest ih =>
      intro h
      obtain ⟨hact, href⟩ := h i (by simp)
      obtain ⟨h1, h2, h3, h4⟩ := ih fun j hj => h j (by simp [hj])
      rcases hn : needs_refresh i now with _ | _
      · refine ⟨?_, ?_, ?_, ?_⟩
        · simp [refresh_expired_tokens, hact, href, hn, List.countP_cons, h1]
        · simp [refresh_expired_tokens, hact, href, hn, List.countP_cons, h2]
        · simp [refresh_expired_tokens, hact, href, hn, h3]
        · intro p hp
          simp only [refresh_expired_tokens, hact, href, hn] at hp
          simp at hp
          rcases hp with hp | hp
          · intro _; subst hp; rfl
          · exact h4 p (by simpa using hp)
      · rcases hex : ex i with _ | td
        · refine ⟨?_, ?_, ?_, ?_⟩
          · simp [refresh_expired_tokens, refresh_single_token, hact, href, hn,
              hex, exSucceeds, List.countP_cons, h1]
          · simp [refresh_expired_tokens, refresh_single_token, hact, href, hn,
              hex, exSucceeds, List.countP_cons, h2]
          · simp [refresh_expired_tokens, refresh_single_token, hact, href, hn,
              hex, h3]
          · intro p hp
            simp only [refresh_expired_tokens, refresh_single_token, hact, href,
              hn, hex] at hp
            simp [href] at hp
            rcases hp with hp | hp
            · intro hfalse; subst hp; simp [hn] at hfalse
            · exact h4 p (by simpa using hp)
        · refine ⟨?_, ?_, ?_, ?_⟩
          · simp [refresh_expired_tokens, refresh_single_token, hact, href, hn,
              hex, exSucceeds, List.countP_cons, h1]
          · simp [refresh_expired_tokens, refresh_single_token, hact, href, hn,
              hex, exSucceeds, List.countP_cons, h2]
          · simp [refresh_expired_tokens, refresh_single_token, hact, href, hn,
              hex, h3]
          · intro p hp
            simp only [refresh_expired_tokens, refresh_single_token, hact, href,
              hn, hex] at hp
            simp [href] at hp
            rcases hp with hp | hp
            · intro hfalse; subst hp; simp [hn] at hfalse
            · exact h4 p (by simpa using hp)

/-- C5: over active records with non-empty refresh tokens, of which `K`
need refresh and `M` of those hit a failing exchange, the sweep reports
`refreshed_count = K - M` and `failed_count = M`, keeps every record in the
store, leaves the records not needing refresh unmodified, and a per-record
failure never aborts the sweep (later records are still processed and
counted). -/
theorem C5_sweep_counts (now : Int) (ex : Integration → ExchangeResult)
    (rs : List Integration)
    (h : ∀ i ∈ rs, i.is_active = true ∧ i.refresh_token ≠ "") :
    (refresh_expired_tokens now ex rs).1
        = rs.countP (fun i => needs_refresh i now)
          - rs.countP (fun i => needs_refresh i now && !exSucceeds (ex i))
    ∧ (refresh_expired_tokens now ex rs).2.1
        = rs.countP (fun i => needs_refresh i now && !exSucceeds (ex i))
    ∧ (refresh_expired_tokens now ex rs).2.2.length = rs.length
    ∧ ∀ p ∈ rs.zip (refresh_expired_tokens now ex rs).2.2,
        needs_refresh p.1 now = false → p.2 = p.1 := by
  obtain ⟨h1, h2, h3, h4⟩ := refresh_sweep_aux now ex rs h
  refine ⟨?_, h2, h3, h4⟩
  rw [h1, countP_and_split rs (fun i => needs_refresh i now)
    (fun i => exSucceeds (ex i))]
  omega

/-- Exchange oracle for the C5 witness: the tenant `b` hits a network
failure, everyone else succeeds. -/
def wEx : Integration → ExchangeResult := fun i =>
  if i.location_id = "b" then .failure
  else .success ⟨"nt", none, none, none, none, none, none⟩

/-- Store for the C5 witness: `a` and `b` are due for refresh, `c` is not. -/
def wRecords : List Integration :=
  [sampleI "a" 1800, sampleI "b" 1800, sampleI "c" 9999]

/-- Witness for C5: with `K = 2` due and `M = 1` failing, the sweep reports
one refreshed and one failed. -/
theorem C5_sweep_counts_witness :
    (refresh_expired_tokens 0 wEx wRecords).1 = 1
    ∧ (refresh_expired_tokens 0 wEx wRecords).2.1 = 1 := by
  have h := C5_sweep_counts 0 wEx wRecords (by decide)
  exact ⟨by rw [h.1]; decide, by rw [h.2.1]; decide⟩

/-- C4: `get_valid_token` raises on an inactive record and never returns a
token for it; on an active record needing refresh (or expired) it refreshes
synchronously, returning the fresh token with `true` on success and raising
on failure; otherwise it returns the current token with `false`. -/
theorem C4_get_valid_token_spec (r : Integration) (now : Int) (ex : ExchangeResult) :
    (r.is_active = false →
        (get_valid_token r now ex).1 = .inactiveError
        ∧ ∀ t w, (get_valid_token r now ex).1 ≠ .ok t w)
    ∧ (r.is_active = true →
        (needs_refresh r now = true ∨ is_token_expired r now = true) →
        ((refresh_single_token r now ex).1 = true →
            (get_valid_token r now ex).1
              = .ok (refresh_single_token r now ex).2.access_token true)
        ∧ ((refresh_single_token r now ex).1 = false →
            (get_valid_token r now ex).1 = .refreshFailed))
    ∧ (r.is_active = true → needs_refresh r now = false →
        is_token_expired r now = false →
        get_valid_token r now ex = (.ok r.access_token false, r)) := by
  refine ⟨?_, ?_, ?_⟩
  · intro ha
    simp [get_valid_token, ha]
  · intro ha hdue
    rcases hr : refresh_single_token r now ex with ⟨ok, r'⟩
    rcases hn : needs_refresh r now with _ | _
    · rcases hdue with hdue | hdue
      · simp [hn] at hdue
      · cases ok <;> simp [get_valid_token, ha, hn, hdue, hr]
    · cases ok <;> simp [get_valid_token, ha, hn, hr]
  · intro ha hn he
    simp [get_valid_token, ha, hn, he]

/-- Witness for C4: an inactive record raises, an active record expiring in
30 minutes refreshes (success and failure outcomes), and a healthy record
passes its token through un-refreshed. -/
theorem C4_get_valid_token_spec_witness :
    (get_valid_token { sampleI "w4a" 9999 with is_active := false } 0 .failure).1
        = .inactiveError
    ∧ (get_valid_token (sampleI "w4b" 1800) 0
          (.success ⟨"freshTok", none, none, none, none, none, none⟩)).1
        = .ok "freshTok" true
    ∧ (get_valid_token (sampleI "w4c" 1800) 0 .failure).1 = .refreshFailed
    ∧ (get_valid_token (sampleI "w4d" 9999) 0 .failure).1 = .ok "tokA" false := by
  refine ⟨?_, ?_, ?_, ?_⟩
  · exact (C4_get_valid_token_spec { sampleI "w4a" 9999 with is_active := false }
      0 .failure).1 (by decide) |>.1
  · have h := ((C4_get_valid_token_spec (sampleI "w4b" 1800) 0
      (.success ⟨"freshTok", none, none, none, none, none, none⟩)).2.1
      (by decide) (Or.inl (by decide))).1 (by decide)
    simpa using h
  · exact ((C4_get_valid_token_spec (sampleI "w4c" 1800) 0 .failure).2.1
      (by decide) (Or.inl (by decide))).2 (by decide)
  · have h := (C4_get_valid_token_spec (sampleI "w4d" 9999) 0 .failure).2.2
      (by decide) (by decide) (by decide)
    simpa using congrArg Prod.fst h

/-- C10: an expired token always satisfies `needs_refresh` (zero or negative
remaining lifetime is at most one hour), so the `is_token_expired` elif
branch of `get_valid_token` is unreachable: its path condition is false for
every record, and an active record that does not need refresh always takes
the plain return. -/
theorem C10_expired_implies_needs_refresh (r : Integration) (now : Int) :
    (is_token_expired r now = true → needs_refresh r now = true)
    ∧ reaches_expired_branch r now = false
    ∧ (∀ ex : ExchangeResult, r.is_active = true → needs_refresh r now = false →
        get_valid_token r now ex = (.ok r.access_token false, r)) := by
  have himp : is_token_expired r now = true → needs_refresh r now = true := by
    intro h
    simp [is_token_expired] at h
    simp [needs_refresh]
    omega
  have hbr : reaches_expired_branch r now = false := by
    rcases hn : needs_refresh r now with _ | _
    · rcases he : is_token_expired r now with _ | _
      · simp [reaches_expired_branch, hn, he]
      · exact absurd (himp he) (by simp [hn])
    · simp [reaches_expired_branch, hn]
  refine ⟨himp, hbr, ?_⟩
  intro ex ha hn
  rcases he : is_token_expired r now with _ | _
  · simp [get_valid_token, ha, hn, he]
  · exact absurd (himp he) (by simp [hn])

/-- Witness for C10: a record one second past expiry needs refresh, and a
healthy active record skips both refresh branches. -/
theorem C10_expired_implies_needs_refresh_witness :
    needs_refresh (sampleI "wA" (-1)) 0 = true
    ∧ get_valid_token (sampleI "wB" 9999) 0 .failure
        = (.ok "tokA" false, sampleI "wB" 9999) := by
  constructor
  · exact (C10_expired_implies_needs_refresh (sampleI "wA" (-1)) 0).1 (by decide)
  · exact (C10_expired_implies_needs_refresh (sampleI "wB" 9999) 0).2.2 .failure
      (by decide) (by decide)

/-- A JSON value, as produced by `json.loads` on the webhook body. -/
inductive JValue where
  | jnull : JValue
  | jbool : Bool → JValue
  | jnum : Int → JValue
  | jstr : String → JValue
  | jarr : List JValue → JValue
  | jobj : List (String × JValue) → JValue
  deriving Repr

/-- Python truthiness of a JSON value: `None`, `False`, `0`, `""`, `[]` and
`{}` are falsy. -/
def truthy : JValue → Bool
  | .jnull => false
  | .jbool b => b
  | .jnum n => n != 0
  | .jstr s => s != ""
  | .jarr xs => !xs.isEmpty
  | .jobj fs => !fs.isEmpty

/-- `d.get(k)` on a dict with default `None`: a missing key gives `None`. -/
def jget (fields : List (String × JValue)) (k : String) : JValue :=
  (fields.lookup k).getD .jnull

/-- The tenant-id extraction chain of `webhook_handler` (`views.py` lines
323-329): `locationId or location_id or location.id or data.locationId`,
each step only evaluated if the previous value was falsy (Python `or` is
lazy).  `webhook_data.get('location', {})` defaults only a missing key, so
a present non-dict value (including an explicit `null`) hits `.get` on a
non-dict and raises `AttributeError`, modelled as `Except.error`; likewise
for `data` and for a non-object body. -/
def extract_location_id : JValue → Except Unit JValue
  | .jobj fs =>
    let v1 := jget fs "locationId"
    if truthy v1 then .ok v1
    else
      let v2 := jget fs "location_id"
      if truthy v2 then .ok v2
      else
        match (fs.lookup "location").getD (.jobj []) with
        | .jobj lfs =>
          let v3 := jget lfs "id"
          if truthy v3 then .ok v3
          else
            match (fs.lookup "data").getD (.jobj []) with
            | .jobj dfs => .ok (jget dfs "locationId")
            | _ => .error ()
        | _ => .error ()
  | _ => .error ()

/-- The event-kind extraction of `webhook_handler` (`views.py` lines
332-336): `type or eventType or 'unknown'`.  Only reached on an object
body (a non-object body already raised in the tenant-id chain), so the
catch-all line is inert. -/
def extract_event_type : JValue → JValue
  | .jobj fs =>
    let t1 := jget fs "type"
    if truthy t1 then t1
    else
      let t2 := jget fs "eventType"
      if truthy t2 then t2 else .jstr "unknown"
  | _ => .jstr "unknown"

/-- Boundary outcome of `webhook_handler`: `badJson` is the 400
`'Invalid JSON'` response, `missingLocationId` the 400 `'Missing locationId'`
response, `attrError` the 500 response produced when the extraction chain
raises `AttributeError`, and `stored locId evType` the path that looks up or
creates the integration and durably records the event before processing
it. -/
inductive WebhookResponse where
  | badJson : WebhookResponse
  | missingLocationId : WebhookResponse
  | attrError : WebhookResponse
  | stored : JValue → JValue → WebhookResponse
  deriving Repr

/-- HTTP status of each boundary outcome (`views.py`: 400 for bad JSON and
missing location id, 500 for the generic exception handler, 200 for the
stored-webhook success response). -/
def statusCode : WebhookResponse → Nat
  | .badJson => 400
  | .missingLocationId => 400
  | .attrError => 500
  | .stored _ _ => 200

/-- Whether the webhook event was persisted: only the stored path creates
the `GoHighLevelWebhook` row. -/
def persisted : WebhookResponse → Bool
  | .stored _ _ => true
  | _ => false

/-- A 4xx response. -/
def isClientError (r : WebhookResponse) : Bool :=
  400 ≤ statusCode r && statusCode r < 500

/-- `webhook_handler` (`views.py` lines 314-409) at the boundary: `none`
stands for a body `json.loads` rejects; otherwise the tenant id is
extracted (`attrError` if the chain raises), a falsy tenant id is rejected
with 400, and a truthy one reaches the store-and-process path. -/
def webhook_handler : Option JValue → WebhookResponse
  | none => .badJson
  | some b =>
    match extract_location_id b with
    | .error _ => .attrError
    | .ok v => if truthy v then .stored v (extract_event_type b) else .missingLocationId

/-- Per-tenant state seen by the webhook reconciler: the credential record
and the linked secret-token entity.  Modelled from the spec: the
`WhatsAppAccessToken` model class is imported by `views.py` but its
definition is absent from `models.py`; per the spec it is a linked secret
token, one-to-one per tenant, cascade-deleted on uninstall. -/
structure TenantState where
  integration : Integration
  whatsapp_token : Option String
  deriving Repr

/-- The WhatsApp-token cleanup of the `UNINSTALL` branch (`views.py` lines
429-444): the delete statement runs only when matching rows exist
(`deleted_count > 0`); with no rows nothing is deleted and that is not an
error. -/
def delete_whatsapp_tokens : Option String → Option String
  | some _ => none
  | none => none

/-- `process_webhook` (`views.py` lines 412-470) acting on the per-tenant
state.  `UNINSTALL` deactivates the record and cleans up the linked
secret-token entity, touching no other field; `INSTALL` reactivates and
merges truthy string metadata from the payload; unknown kinds change
nothing.  (The webhook row's own `processed` flag lives on the per-event
row, not on this state.) -/
def process_webhook (event_type : String) (event_data : JValue) (s : TenantState) :
    TenantState :=
  if event_type = "UNINSTALL" then
    { integration := { s.integration with is_active := false }
      whatsapp_token := delete_whatsapp_tokens s.whatsapp_token }
  else if event_type = "INSTALL" then
    let integ := { s.integration with is_active := true }
    let integ :=
      match event_data with
      | .jobj fs =>
        let integ :=
          match jget fs "companyName" with
          | .jstr s' => if s' != "" then { integ with company_name := s' } else integ
          | _ => integ
        let integ :=
          match jget fs "companyId" with
          | .jstr s' => if s' != "" then { integ with company_id := s' } else integ
          | _ => integ
        match jget fs "userId" with
        | .jstr s' => if s' != "" then { integ with user_id := s' } else integ
        | _ => integ
      | _ => integ
    { s with integration := integ }
  else s

/-- C6: applying the same `UNINSTALL` event twice is idempotent — both
applications deactivate the record, the second one converges to the same
state without error, token fields and metadata are left intact, and
deleting the already-deleted secret-token entity again is a no-op. -/
theorem C6_uninstall_idempotent (s : TenantState) (d : JValue) :
    process_webhook "UNINSTALL" d (process_webhook "UNINSTALL" d s)
        = process_webhook "UNINSTALL" d s
    ∧ (process_webhook "UNINSTALL" d s).integration.is_active = false
    ∧ (process_webhook "UNINSTALL" d
        (process_webhook "UNINSTALL" d s)).integration.is_active = false
    ∧ (process_webhook "UNINSTALL" d s).integration.access_token
        = s.integration.access_token
    ∧ (process_webhook "UNINSTALL" d s).integration.refresh_token
        = s.integration.refresh_token
    ∧ (process_webhook "UNINSTALL" d s).integration.expires_at
        = s.integration.expires_at
    ∧ (process_webhook "UNINSTALL" d s).integration.scope = s.integration.scope
    ∧ (process_webhook "UNINSTALL" d s).integration.company_name
        = s.integration.company_name
    ∧ (process_webhook "UNINSTALL" d s).integration.location_id
        = s.integration.location_id
    ∧ delete_whatsapp_tokens none = none := by
  cases hw : s.whatsapp_token <;>
    simp [process_webhook, delete_whatsapp_tokens, hw]

/-- The claim's own extraction rule, taken from the spec text: the first
non-null among `locationId`, `location_id`, `location.id`, `data.locationId`,
where a missing key, a JSON null, or a non-object parent counts as null. -/
def spec_first_tenant_id (b : JValue) : Option JValue :=
  let flat := fun (k : String) =>
    match b with
    | .jobj fs =>
      match fs.lookup k with
      | some .jnull => none
      | some v => some v
      | none => none
    | _ => none
  let nested := fun (k1 k2 : String) =>
    match b with
    | .jobj fs =>
      match fs.lookup k1 with
      | some (.jobj lfs) =>
        match lfs.lookup k2 with
        | some .jnull => none
        | some v => some v
        | none => none
      | _ => none
    | _ => none
  (flat "locationId") <|> (flat "location_id")
    <|> (nested "location" "id") <|> (nested "data" "locationId")

/-- Counterexample to C8: the body `{"location": "xyz"}` is valid JSON and
yields no tenant id under the claim's first-non-null rule, yet the handler
answers 500 (the chain's `.get` on the string raises `AttributeError`),
not a 4xx client error.  The event is still not persisted. -/
theorem C8_webhook_counterexample :
    spec_first_tenant_id (.jobj [("location", .jstr "xyz")]) = none
    ∧ webhook_handler (some (.jobj [("location", .jstr "xyz")])) = .attrError
    ∧ statusCode (webhook_handler (some (.jobj [("location", .jstr "xyz")]))) = 500
    ∧ isClientError (webhook_handler (some (.jobj [("location", .jstr "xyz")]))) = false
    ∧ persisted (webhook_handler (some (.jobj [("location", .jstr "xyz")]))) = false :=
  ⟨rfl, rfl, rfl, rfl, rfl⟩

/-- C8 as amended: the handler extracts the tenant id as the first TRUTHY
(not first non-null) of `locationId`, `location_id`, `location.id`,
`data.locationId`, evaluated lazily, and the event kind as the first truthy
of `type`, `eventType` with default `"unknown"`.  A body that is not valid
JSON, or whose chain completes with a falsy tenant id, is rejected with a
4xx and not persisted; but a body that is not a JSON object, or whose
`location` (or, when reached, `data`) key holds a present non-object value,
makes the chain raise and answers a 500 server error — still not
persisted. -/
theorem C8_webhook_amended :
    (webhook_handler none = .badJson
      ∧ isClientError .badJson = true ∧ persisted .badJson = false)
    ∧ (∀ b : JValue, (∀ fs, b ≠ .jobj fs) →
        webhook_handler (some b) = .attrError
        ∧ statusCode (webhook_handler (some b)) = 500
        ∧ persisted (webhook_handler (some b)) = false)
    ∧ (∀ fs : List (String × JValue),
        (truthy (jget fs "locationId") = true →
          webhook_handler (some (.jobj fs))
            = .stored (jget fs "locationId") (extract_event_type (.jobj fs)))
        ∧ (truthy (jget fs "locationId") = false →
            truthy (jget fs "location_id") = true →
            webhook_handler (some (.jobj fs))
              = .stored (jget fs "location_id") (extract_event_type (.jobj fs)))
        ∧ (truthy (jget fs "locationId") = false →
            truthy (jget fs "location_id") = false →
            (∀ lfs, (fs.lookup "location").getD (.jobj []) = .jobj lfs →
               (truthy (jget lfs "id") = true →
                 webhook_handler (some (.jobj fs))
                   = .stored (jget lfs "id") (extract_event_type (.jobj fs)))
               ∧ (truthy (jget lfs "id") = false →
                   (∀ dfs, (fs.lookup "data").getD (.jobj []) = .jobj dfs →
                     (truthy (jget dfs "locationId") = true →
                       webhook_handler (some (.jobj fs))
                         = .stored (jget dfs "locationId")
                             (extract_event_type (.jobj fs)))
                     ∧ (truthy (jget dfs "locationId") = false →
                         webhook_handler (some (.jobj fs)) = .missingLocationId
                         ∧ isClientError .missingLocationId = true
                         ∧ persisted .missingLocationId = false))
                   ∧ ((∀ dfs, (fs.lookup "data").getD (.jobj []) ≠ .jobj dfs) →
                       webhook_handler (some (.jobj fs)) = .attrError
                       ∧ persisted .attrError = false)))
            ∧ ((∀ lfs, (fs.lookup "location").getD (.jobj []) ≠ .jobj lfs) →
                webhook_handler (some (.jobj fs)) = .attrError)))
    ∧ (∀ fs : List (String × JValue),
        (truthy (jget fs "type") = true →
          extract_event_type (.jobj fs) = jget fs "type")
        ∧ (truthy (jget fs "type") = false → truthy (jget fs "eventType") = true →
            extract_event_type (.jobj fs) = jget fs "eventType")
        ∧ (truthy (jget fs "type") = false → truthy (jget fs "eventType") = false →
            extract_event_type (.jobj fs) = .jstr "unknown")) := by
  refine ⟨⟨rfl, rfl, rfl⟩, ?_, ?_, ?_⟩
  · intro b hb
    cases b with
    | jobj fs => exact absurd rfl (hb fs)
    | jnull => exact ⟨rfl, rfl, rfl⟩
    | jbool x => exact ⟨rfl, rfl, rfl⟩
    | jnum x => exact ⟨rfl, rfl, rfl⟩
    | jstr x => exact ⟨rfl, rfl, rfl⟩
    | jarr xs => exact ⟨rfl, rfl, rfl⟩
  · intro fs
    refine ⟨?_, ?_, ?_⟩
    · intro h1
      simp [webhook_handler, extract_location_id, h1]
    · intro h1 h2
      simp [webhook_handler, extract_location_id, h1, h2]
    · intro h1 h2
      refine ⟨?_, ?_⟩
      · intro lfs hloc
        refine ⟨?_, ?_⟩
        · intro h3
          simp [webhook_handler, extract_location_id, h1, h2, hloc, h3]
        · intro h3
          refine ⟨?_, ?_⟩
          · intro dfs hdat
            refine ⟨?_, ?_⟩
            · intro h4
              simp [webhook_handler, extract_location_id, h1, h2, hloc, h3,
                hdat, h4]
            · intro h4
              exact ⟨by simp [webhook_handler, extract_location_id, h1, h2,
                hloc, h3, hdat, h4], rfl, rfl⟩
          · intro hdat
            refine ⟨?_, rfl⟩
            rcases hd : (fs.lookup "data").getD (.jobj []) with _ | x | x | x | xs | dfs
            all_goals
              first
              | exact absurd hd (hdat _)
              | simp [webhook_handler, extract_location_id, h1, h2, hloc, h3, hd]
      · intro hne
        rcases hl : (fs.lookup "location").getD (.jobj []) with _ | x | x | x | xs | lfs
        all_goals
          first
          | exact absurd hl (hne _)
          | simp [webhook_handler, extract_location_id, h1, h2, hl]
  · intro fs
    refine ⟨?_, ?_, ?_⟩
    · intro h1
      simp [extract_event_type, h1]
    · intro h1 h2
      simp [extract_event_type, h1, h2]
    · intro h1 h2
      simp [extract_event_type, h1, h2]

/-- Witness for C8 (amended): a body carrying a truthy `locationId` and
`type` is stored with exactly those values, a JSON object without any
tenant-id candidate is rejected with the 400 missing-location response, and
a JSON array body yields the 500 response. -/
theorem C8_webhook_amended_witness :
    webhook_handler (some (.jobj [("locationId", .jstr "L1"), ("type", .jstr "INSTALL")]))
        = .stored (.jstr "L1") (.jstr "INSTALL")
    ∧ webhook_handler (some (.jobj [("foo", .jstr "x")])) = .missingLocationId
    ∧ webhook_handler (some (.jarr [])) = .attrError := by
  refine ⟨?_, ?_, ?_⟩
  · exact (C8_webhook_amended.2.2.1
      [("locationId", .jstr "L1"), ("type", .jstr "INSTALL")]).1 rfl
  · have h := ((C8_webhook_amended.2.2.1 [("foo", .jstr "x")]).2.2 rfl rfl).1
      [] rfl
    exact (((h.2 rfl).1 [] rfl).2 rfl).1
  · exact (C8_webhook_amended.2.1 (.jarr [])
      (fun fs hcontra => JValue.noConfusion hcontra)).1

end GHL
